import Mathlib

/-
Verification development for setup-llvm-repos.py.

The script is orchestration glue: it builds shell command strings and runs
them through a small execution facade (docmd / doscmd / dochdir) that
honours global echo and dry-run flags.  We embed the script shallowly:

  * every external effect (stderr log line, stdout print, spawned command,
    directory change, file write, pool-result wait) becomes an `Event`;
  * each Python function becomes a Lean function from its inputs (the
    global flags are gathered in a `Config` record, outputs of external
    commands such as `whoami` or `find` are explicit parameters) to the
    list of events it emits, plus an `Except PyErr` outcome where the
    source can raise (u.error, uncaught KeyError);
  * the cmake flavor table keeps its Python shape: a list of
    (name, dict) pairs where the dict is an association list over
    heterogeneous keys (strings or ints), because the script indexes one
    of these dicts with the integer 2 (`extra = tup[2]`), which matters.

External commands are assumed to succeed; their outcomes are opaque to the
orchestration logic being specified.
-/

namespace SLR

/-- Python dict keys occurring in the script: strings and ints. -/
inductive PyKey
| s (v : String)
| i (v : Int)
deriving DecidableEq

/-- Values stored in a cmake flavor dict: None, a string, or an int. -/
inductive FVal
| pynone
| pystr (v : String)
| pyint (v : Int)
deriving DecidableEq

/-- Coerce a flavor-dict value to a string (table ccflav/extra values are
strings wherever the script reads them as such). -/
def FVal.asStr : FVal → String
| .pystr s => s
| _ => ""

/-- A cmake flavor entry: a Python dict, modelled as an association list. -/
abbrev FDict := List (PyKey × FVal)

/-- The cmake_flavors table: ordered association list of (flavor, dict). -/
abbrev FlavorTable := List (String × FDict)

/-- legal_tags from the script (the dict-literal keys). -/
def legal_tags : List String := ["cmflav", "ccflav", "extra", "early"]

/-- The cmake_flavors table, transcribed entry by entry. -/
def cmake_flavors : FlavorTable :=
  [ ("opt",
      [(PyKey.s "cmflav", FVal.pynone),
       (PyKey.s "early", FVal.pyint 1),
       (PyKey.s "ccflav", FVal.pystr "clang"),
       (PyKey.s "extra", FVal.pynone)]),
    ("dbg",
      [(PyKey.s "cmflav", FVal.pynone),
       (PyKey.s "early", FVal.pyint 1),
       (PyKey.s "ccflav", FVal.pystr "clang"),
       (PyKey.s "extra", FVal.pystr
         "-DCXX_SUPPORTS_COVERED_SWITCH_DEFAULT_FLAG=0 -DCMAKE_C_FLAGS=\x27-g -O0\x27 -DCMAKE_CXX_FLAGS=\x27-g -O0\x27")]),
    ("rel",
      [(PyKey.s "cmflav", FVal.pystr "Release"),
       (PyKey.s "early", FVal.pyint 1),
       (PyKey.s "ccflav", FVal.pystr "gcc"),
       (PyKey.s "extra", FVal.pynone)]),
    ("cov",
      [(PyKey.s "cmflav", FVal.pynone),
       (PyKey.s "ccflav", FVal.pystr "def"),
       (PyKey.s "extra", FVal.pystr
         "-DCMAKE_C_FLAGS=\x27--coverage\x27 -DCMAKE_CXX_FLAGS=\x27--coverage\x27")]),
    ("clbootstrap.rel",
      [(PyKey.s "cmflav", FVal.pystr "Release"),
       (PyKey.s "ccflav", FVal.pystr "gcc"),
       (PyKey.s "extra", FVal.pystr "-DCLANG_ENABLE_BOOTSTRAP=On")]),
    ("bootstrap.reldb",
      [(PyKey.s "cmflav", FVal.pystr "RelWithDebInfo"),
       (PyKey.s "ccflav", FVal.pystr "bootstrap=build.opt"),
       (PyKey.s "extra", FVal.pystr
         "-DLLVM_BUILD_EXAMPLES=Off -DCOMPILER_RT_BUILD_BUILTINS=Off ")]) ]

/-- Repository URLs (module-level constants of the script). -/
def llvm_git_on_svn : String := "https://llvm.org/svn/llvm-project"

def llvm_ro_svn : String := "http://llvm.org/svn/llvm-project"

def binutils_git : String := "git://sourceware.org/git/binutils-gdb.git"

def llvm_git : String := "http://llvm.org/git/llvm.git"

def clang_git : String := "http://llvm.org/git/clang.git"

def clang_tools_git : String := "http://llvm.org/git/clang-tools-extra.git"

def compiler_rt_git : String := "http://llvm.org/git/compiler-rt.git"

def llgo_git : String := "http://llvm.org/git/llgo.git"

/-- llvm_rw_svn after parse_args substitutes REPLACE_WITH_USER. -/
def llvm_rw_svn (user : String) : String :=
  "https://" ++ user ++ "@llvm.org/svn/llvm-project"

def clang_c_compiler : String := "/usr/bin/clang-3.6"

def clang_cxx_compiler : String := "/usr/bin/clang++-3.6"

def gcc_c_compiler : String := "/usr/bin/gcc-4.8"

def gcc_cxx_compiler : String := "/usr/bin/g++-4.8"

/-- Errors a run can terminate with: a Python KeyError (uncaught) or a
fatal u.error message (prints and exits 1). -/
inductive PyErr
| keyError (k : PyKey)
| fatal (msg : String)
deriving DecidableEq

/-- Observable effects of the script. `write` records the path of a file
written (script bodies are opaque to every claim). `wait` records one
pool-result wait with its timeout argument. -/
inductive Event
| log (s : String)
| print (s : String)
| spawn (cmd : String)
| chdir (d : String)
| write (path : String)
| wait (timeout : Nat)
deriving DecidableEq

/-- The global flags of the script, as set by parse_args. -/
structure Config where
  subvol : Option String := none
  snapshot : Option String := none
  user : String := ""
  binutilsBuild : Bool := true
  runNinja : Bool := true
  echo : Bool := true
  dryrun : Bool := false
  scmFlavor : String := "git-svn"
  cmakeType : String := "Debug"
  doFetch : Bool := false
  includeTools : Bool := true
  includeLlgo : Bool := false
  parallel : Bool := true
  ssdroot : String := ""
deriving DecidableEq

/-- docmd: echo then (unless dry run) execute via u.docmd. -/
def docmd (cfg : Config) (cmd : String) : List Event :=
  (if cfg.echo then [Event.log ("executing: " ++ cmd ++ "\n")] else []) ++
  (if cfg.dryrun then [] else [Event.spawn cmd])

/-- doscmd: identical event shape (u.doscmd underneath). -/
def doscmd (cfg : Config) (cmd : String) : List Event :=
  (if cfg.echo then [Event.log ("executing: " ++ cmd ++ "\n")] else []) ++
  (if cfg.dryrun then [] else [Event.spawn cmd])

/-- dochdir: logs when echo OR dryrun is set, changes directory unless
dry run (chdir assumed to succeed; failure is fatal in the source). -/
def dochdirEvents (cfg : Config) (thedir : String) : List Event :=
  (if cfg.echo || cfg.dryrun then [Event.log ("cd " ++ thedir ++ "\n")] else []) ++
  (if cfg.dryrun then [] else [Event.chdir thedir])

/-- startsWith, via char lists (kernel-computable). -/
def strStartsWith (s p : String) : Bool := p.data.isPrefixOf s.data

/-- drop n characters, via char lists. -/
def strDropChars (s : String) (n : Nat) : String := String.mk (s.data.drop n)

/-- os.chdir path resolution: absolute paths replace the cwd, relative
paths are appended (sufficient for the paths the script uses). -/
def resolveDir (cwd d : String) : String :=
  if strStartsWith d "/" then d else cwd ++ "/" ++ d

/-- Current directory after a dochdir call. -/
def chdirCwd (cfg : Config) (cwd d : String) : String :=
  if cfg.dryrun then cwd else resolveDir cwd d

/-- Fold the chdir events of a trace over an initial working directory. -/
def applyEvents : String → List Event → String
| c, [] => c
| c, Event.chdir d :: es => applyEvents (resolveDir c d) es
| c, _ :: es => applyEvents c es

/-- Commands spawned in a trace. -/
def spawnsOf (t : List Event) : List String :=
  t.filterMap (fun e => match e with | Event.spawn s => some s | _ => none)

/-- stderr log lines of a trace. -/
def logsOf (t : List Event) : List String :=
  t.filterMap (fun e => match e with | Event.log s => some s | _ => none)

/-- Directory changes of a trace. -/
def chdirsOf (t : List Event) : List String :=
  t.filterMap (fun e => match e with | Event.chdir s => some s | _ => none)

/-- Paths of files written in a trace. -/
def writesOf (t : List Event) : List String :=
  t.filterMap (fun e => match e with | Event.write s => some s | _ => none)

/-- The repeated git-svn bridge block of do_subvol_create: chdir into the
clone, git svn init for `sub`, fix the remote mapping, rebase. -/
def gitSvnSetup (cfg : Config) (sub dir : String) : List Event :=
  dochdirEvents cfg dir ++
  doscmd cfg ("git svn init " ++ llvm_git_on_svn ++ "/" ++ sub ++
    "/trunk --username=" ++ cfg.user) ++
  doscmd cfg "git config svn-remote.svn.fetch :refs/remotes/origin/master" ++
  doscmd cfg "git svn rebase -l"

/-- do_subvol_create: create the subvolume and check out every repo.
`here` is os.getcwd() at entry. -/
def do_subvol_create (cfg : Config) (here : String) : List Event :=
  let top := cfg.ssdroot ++ "/" ++ cfg.subvol.getD ""
  docmd cfg ("snapshotutil.py mkvol " ++ cfg.subvol.getD "") ++
  dochdirEvents cfg cfg.ssdroot ++
  dochdirEvents cfg (cfg.subvol.getD "") ++
  (if cfg.scmFlavor = "svn" then
    doscmd cfg ("svn co " ++ llvm_rw_svn cfg.user ++ "/llvm/trunk llvm")
  else
    doscmd cfg ("git clone " ++ llvm_git) ++
    (if cfg.scmFlavor = "git-svn" then gitSvnSetup cfg "llvm" "llvm" else [])) ++
  dochdirEvents cfg (top ++ "/llvm/tools") ++
  (if cfg.scmFlavor = "svn" then
    doscmd cfg ("svn co " ++ llvm_ro_svn ++ "/cfe/trunk clang")
  else
    doscmd cfg ("git clone " ++ clang_git) ++
    (if cfg.scmFlavor = "git-svn" then gitSvnSetup cfg "cfe" "clang" else [])) ++
  (if cfg.includeTools then
    dochdirEvents cfg (top ++ "/llvm/tools/clang/tools") ++
    (if cfg.scmFlavor = "git" then
      doscmd cfg ("svn co " ++ llvm_ro_svn ++ "/clang-tools-extra/trunk extra")
    else
      doscmd cfg ("git clone " ++ clang_tools_git ++ " extra") ++
      (if cfg.scmFlavor = "git-svn" then gitSvnSetup cfg "clang-tools-extra" "extra" else []))
  else []) ++
  (if cfg.includeLlgo then
    dochdirEvents cfg (top ++ "/llvm/tools") ++
    (if cfg.scmFlavor = "git" then
      doscmd cfg ("svn co " ++ llvm_ro_svn ++ "/llgo/trunk llgo")
    else
      doscmd cfg ("git clone " ++ llgo_git ++ " llgo") ++
      (if cfg.scmFlavor = "git-svn" then gitSvnSetup cfg "llgo" "llgo" else []))
  else []) ++
  dochdirEvents cfg (top ++ "/llvm/projects") ++
  (if cfg.scmFlavor = "svn" then
    doscmd cfg ("svn co " ++ llvm_ro_svn ++ "/compiler-rt/trunk compiler-rt")
  else
    doscmd cfg ("git clone " ++ compiler_rt_git) ++
    (if cfg.scmFlavor = "git-svn" then gitSvnSetup cfg "compiler-rt" "compiler-rt" else [])) ++
  dochdirEvents cfg top ++
  doscmd cfg ("git clone " ++ binutils_git ++ " binutils") ++
  dochdirEvents cfg here

/-- do_fetch: update one checkout. `cwd` is os.getcwd() at entry, restored
at the end. -/
def do_fetch (cfg : Config) (flavor wdir cwd : String) : List Event :=
  dochdirEvents cfg wdir ++
  (if flavor = "git" then docmd cfg "git fetch"
   else if flavor = "git-svn" then docmd cfg "git fetch" ++ docmd cfg "git svn rebase -l"
   else docmd cfg "svn update") ++
  dochdirEvents cfg cwd

/-- fetch_in_volume: refresh every repo in the subvolume.  `findLines` is
the output of the find command; note that u.docmdlines runs the find
command unconditionally, so the spawn happens even in dry-run mode.
`cwd0` is the working directory on entry. -/
def fetch_in_volume (cfg : Config) (findLines : List String) (cwd0 : String) : List Event :=
  let top := cfg.ssdroot ++ "/" ++ cfg.subvol.getD ""
  let c1 := chdirCwd cfg cwd0 top
  let c2 := chdirCwd cfg c1 "llvm"
  let tofind := if cfg.scmFlavor = "svn" then ".svn" else ".git"
  dochdirEvents cfg top ++
  do_fetch cfg "git" "binutils" c1 ++
  dochdirEvents cfg "llvm" ++
  [Event.spawn ("find . -depth -name " ++ tofind ++ " -print")] ++
  findLines.flatMap (fun line => do_fetch cfg cfg.scmFlavor line.trim c2) ++
  dochdirEvents cfg top

/-- Dict lookup (Python `d[k]` / `k in d`). -/
def fdictGet (fd : FDict) (k : PyKey) : Option FVal := fd.lookup k

/-- Non-whitespace test used for the regex class backslash-S. -/
def isNonSpaceChar (c : Char) : Bool :=
  !(c = ' ' || c = '\t' || c = '\n' || c = '\r' || c = '\x0b' || c = '\x0c')

/-- The anchored bootstrap regex of bootstrap_tooldir: matches strings of
the form bootstrap DOT name where name is one or more non-space chars,
returning the captured name.  Note the shipped table uses
bootstrap EQUALS build.opt, which this pattern rejects. -/
def bootstrapMatch (s : String) : Option String :=
  if strStartsWith s "bootstrap." then
    let rest := strDropChars s 10
    if !rest.data.isEmpty && rest.data.all isNonSpaceChar then some rest else none
  else none

/-- bootstrap_tooldir: the tool dir for a bootstrap build.  The referenced
name is turned into a path with NO check that it names a table entry.
(The source indexes fd with "ccflav" unguarded; its only callers check
membership first, so the missing-key path is not exercised.) -/
def bootstrap_tooldir (flavors : FlavorTable) (root subvol flav : String) : Option String :=
  match flavors.lookup flav with
  | none => none
  | some fd =>
    match fdictGet fd (PyKey.s "ccflav") with
    | some ccval =>
      match bootstrapMatch ccval.asStr with
      | some tb => some (root ++ "/" ++ subvol ++ "/" ++ tb)
      | none => none
    | none => none

/-- select_cmake_type: cmflav of the entry, falling back to the run-wide
default when the stored value is falsy (None or the empty string). -/
def select_cmake_type (flavors : FlavorTable) (cmakeTypeDefault flav : String) :
    Except PyErr String :=
  match flavors.lookup flav with
  | none => Except.error (PyErr.keyError (PyKey.s flav))
  | some fd =>
    match fdictGet fd (PyKey.s "cmflav") with
    | none => Except.error (PyErr.fatal
        ("internal error: build flavor " ++ flav ++ " has no cmflav setting"))
    | some v =>
      match v with
      | FVal.pynone => Except.ok cmakeTypeDefault
      | FVal.pystr s => Except.ok (if s = "" then cmakeTypeDefault else s)
      | FVal.pyint n => Except.ok (if n = 0 then cmakeTypeDefault else toString n)

/-- The compiler argument string select_compiler_flavor builds. -/
def compilerArgs (extrastuff cComp cxxComp : String) : String :=
  extrastuff ++ "-DCMAKE_C_COMPILER=" ++ cComp ++ " -DCMAKE_CXX_COMPILER=" ++ cxxComp

/-- select_compiler_flavor: resolve the ccflav of an entry to cmake
compiler flags.  A bootstrap match resolves to paths under the referenced
directory without consulting the table; an unrecognised ccflav is fatal. -/
def select_compiler_flavor (flavors : FlavorTable) (root subvol flav : String) :
    Except PyErr String :=
  match flavors.lookup flav with
  | none => Except.error (PyErr.fatal
      ("internal error -- flavor " ++ flav ++ " not in cmake_flavors"))
  | some fd =>
    match fdictGet fd (PyKey.s "ccflav") with
    | none => Except.error (PyErr.fatal
        ("internal error: build flavor " ++ flav ++ " has no ccflav setting"))
    | some ccval =>
      let ccflav := ccval.asStr
      let tbdir := bootstrap_tooldir flavors root subvol flav
      if ccflav = "gcc" then
        Except.ok (compilerArgs "" gcc_c_compiler gcc_cxx_compiler)
      else if ccflav = "clang" then
        Except.ok (compilerArgs "" clang_c_compiler clang_cxx_compiler)
      else if ccflav = "def" then
        Except.ok ""
      else
        match tbdir with
        | some tb => Except.ok (compilerArgs
            ("-DCMAKE_RANLIB=" ++ tb ++ "/bin/llvm-ranlib -DCMAKE_AR=" ++ tb ++ "/bin/llvm-ar ")
            (tb ++ "/bin/clang") (tb ++ "/bin/clang++"))
        | none => Except.error (PyErr.fatal
            ("internal error -- bad ccflav setting " ++ ccflav))

/-- select_dyld_library_path: env prefix when the entry is a bootstrap. -/
def select_dyld_library_path (flavors : FlavorTable) (root subvol flav : String) : String :=
  match bootstrap_tooldir flavors root subvol flav with
  | none => ""
  | some tb => "env DYLD_LIBRARY_PATH=" ++ tb ++ "/lib"

/-- emit_cmake_cmd_script: build the cmake command line and archive it
(print in dry-run, write .cmake_cmd otherwise).  The source reads the
extra arguments as `tup[2]` on the flavor dict, whose keys are the strings
cmflav / ccflav / extra / early, so the integer key 2 is never present and
the lookup raises KeyError (select_cmake_extras, which reads the "extra"
key, exists in the source but is never called). -/
def emit_cmake_cmd_script (cfg : Config) (flavors : FlavorTable) (flav : String) :
    List Event × Except PyErr String :=
  let bpath := "LLVM_BINUTILS_INCDIR=" ++ cfg.ssdroot ++ "/" ++ cfg.snapshot.getD "" ++
    "/binutils/include"
  match flavors.lookup flav with
  | none => ([], Except.error (PyErr.keyError (PyKey.s flav)))
  | some tup =>
    let dyldsetting := select_dyld_library_path flavors cfg.ssdroot (cfg.subvol.getD "") flav
    match select_compiler_flavor flavors cfg.ssdroot (cfg.subvol.getD "") flav with
    | Except.error e => ([], Except.error e)
    | Except.ok ccomp =>
      match select_cmake_type flavors cfg.cmakeType flav with
      | Except.error e => ([], Except.error e)
      | Except.ok cmakeTy =>
        match fdictGet tup (PyKey.i 2) with
        | none => ([], Except.error (PyErr.keyError (PyKey.i 2)))
        | some extraV =>
          let extra := extraV.asStr
          let cmake_cmd := dyldsetting ++ " cmake -DCMAKE_BUILD_TYPE=" ++ cmakeTy ++
            " -D" ++ bpath ++ " " ++ ccomp ++ " " ++ extra ++ " -G Ninja ../llvm"
          if cfg.dryrun then
            ([Event.print ("+++ archiving cmake cmd: " ++ cmake_cmd)], Except.ok cmake_cmd)
          else
            ([Event.write "./.cmake_cmd"], Except.ok cmake_cmd)

/-- emit_rebuild_scripts: one archive print in dry-run, otherwise three
helper scripts written into the build dir. -/
def emit_rebuild_scripts (cfg : Config) (_flav : String) : List Event :=
  if cfg.dryrun then [Event.print "+++ archiving clean + build cmds"]
  else [Event.write "./.clean.sh", Event.write "./.build-all.sh",
        Event.write "./.clean-and-build-all.sh"]

/-- do_configure_binutils: make the binutils build dir and configure it. -/
def do_configure_binutils (cfg : Config) : List Event :=
  docmd cfg "mkdir binutils-build" ++
  dochdirEvents cfg "binutils-build" ++
  doscmd cfg "../binutils/configure --enable-gold --enable-plugins --disable-werror" ++
  dochdirEvents cfg ".."

/-- run_cmake: chdir failure or a bad command status returns 1, else 0. -/
def run_cmake (chdirOk cmdOk : Bool) : Nat :=
  if !chdirOk then 1 else if !cmdOk then 1 else 0

/-- The per-flavor loop of do_setup_cmake (lines 477-489): make and enter
the build dir, emit the scripts and the cmake command, then either log the
parallel dispatch or run cmake synchronously.  An exception from
emit_cmake_cmd_script aborts the loop, as in the source. -/
def setup_cmake_loop (cfg : Config) (flavors : FlavorTable) :
    List (String × FDict) → List Event × Except PyErr Unit
| [] => ([], Except.ok ())
| (flav, _) :: rest =>
  let pre := docmd cfg ("mkdir build." ++ flav) ++
    dochdirEvents cfg ("build." ++ flav) ++
    emit_rebuild_scripts cfg flav
  match emit_cmake_cmd_script cfg flavors flav with
  | (t, Except.error e) => (pre ++ t, Except.error e)
  | (t, Except.ok cmake_cmd) =>
    let exec := if cfg.parallel && !cfg.dryrun
      then [Event.log ("...kicking off cmake for " ++ flav ++ " in parallel...")]
      else doscmd cfg cmake_cmd
    let next := setup_cmake_loop cfg flavors rest
    (pre ++ t ++ exec ++ dochdirEvents cfg ".." ++ next.1, next.2)

/-- do_setup_cmake iterates the flavor table itself: `for flav in
cmake_flavors`, no filtering of any kind.  (The result-collection phase,
lines 490-499, is modelled separately by finish_setup_cmake, over the list
of per-flavor exit statuses of the dispatched run_cmake calls.) -/
def do_setup_cmake (cfg : Config) (flavors : FlavorTable) : List Event × Except PyErr Unit :=
  setup_cmake_loop cfg flavors flavors

/-- The collection loop of do_setup_cmake (lines 492-497): one bounded
get(timeout=600) per dispatched result, a sticky failure flag. -/
def collect_cmake_results : List Nat → List Event × Bool
| [] => ([], false)
| r :: rest =>
  let next := collect_cmake_results rest
  (Event.wait 600 :: next.1, (r != 0) || next.2)

/-- Lines 490-499 of the source: wait on every result, then raise one
aggregate fatal error if any invocation failed. -/
def finish_setup_cmake (results : List Nat) : List Event × Except PyErr Unit :=
  if (collect_cmake_results results).2 then
    ((collect_cmake_results results).1,
     Except.error (PyErr.fatal "one or more cmake cmds failed"))
  else ((collect_cmake_results results).1, Except.ok ())

/-- The snapshot-creation command string. -/
def snapCmd (cfg : Config) : String :=
  "snapshotutil.py mksnap " ++ (cfg.subvol.getD "" ++ " " ++ cfg.snapshot.getD "")

/-- The part of do_snapshot_create after the optional refresh (lines
506-510): mksnap, enter the snapshot, configure binutils, cmake setup. -/
def snapshot_create_rest (cfg : Config) : List Event × Except PyErr Unit :=
  let setup := do_setup_cmake cfg cmake_flavors
  (docmd cfg (snapCmd cfg) ++
   dochdirEvents cfg cfg.ssdroot ++
   dochdirEvents cfg (cfg.snapshot.getD "") ++
   do_configure_binutils cfg ++
   setup.1, setup.2)

/-- do_snapshot_create: the refresh (only when -F was given) followed by
snapshot_create_rest. -/
def do_snapshot_create (cfg : Config) (findLines : List String) (cwd0 : String) :
    List Event × Except PyErr Unit :=
  ((if cfg.doFetch then fetch_in_volume cfg findLines cwd0 else []) ++
    (snapshot_create_rest cfg).1, (snapshot_create_rest cfg).2)

/-- do_snapshot_build: binutils make and ninja, each stubbable. -/
def do_snapshot_build (cfg : Config) : List Event :=
  dochdirEvents cfg cfg.ssdroot ++
  dochdirEvents cfg (cfg.snapshot.getD "") ++
  (if cfg.binutilsBuild then
    dochdirEvents cfg "binutils-build" ++
    doscmd cfg "make -j40" ++
    doscmd cfg "make -j40 all-gold" ++
    dochdirEvents cfg ".."
  else [Event.log "... binutils build stubbed out\n"]) ++
  (if cfg.runNinja then
    dochdirEvents cfg "build.opt" ++
    docmd cfg "ninja" ++
    dochdirEvents cfg ".."
  else [Event.log "... ninja build stubbed out\n"])

/-- Options of the getopt string "DGJS:FTXqdnNs:r:" that take an argument. -/
def optTakesArg (c : Char) : Bool := c = 'S' || c = 's' || c = 'r'

/-- All option letters of the getopt string. -/
def optKnown (c : Char) : Bool :=
  c = 'D' || c = 'G' || c = 'J' || c = 'S' || c = 'F' || c = 'T' || c = 'X' ||
  c = 'q' || c = 'd' || c = 'n' || c = 'N' || c = 's' || c = 'r'

/-- Parse one clustered option argument ("-Dq", "-svalue"): returns the
options found, plus an option still needing the next argv word. -/
def parseCluster : List Char → Except String (List (String × String) × Option String)
| [] => Except.ok ([], none)
| c :: rest =>
  if optTakesArg c then
    if rest.isEmpty then Except.ok ([], some ("-" ++ c.toString))
    else Except.ok ([("-" ++ c.toString, String.mk rest)], none)
  else if optKnown c then
    match parseCluster rest with
    | Except.error e => Except.error e
    | Except.ok (os, p) => Except.ok (("-" ++ c.toString, "") :: os, p)
  else Except.error ("option -" ++ c.toString ++ " not recognized")

/-- getopt.getopt over "DGJS:FTXqdnNs:r:": processes words left to right,
stops at "--" or the first non-option word; unknown options and a missing
option argument raise GetoptError. -/
def getopt : List String → Except String (List (String × String) × List String)
| [] => Except.ok ([], [])
| a :: rest =>
  if a = "--" then Except.ok ([], rest)
  else if strStartsWith a "-" && a != "-" then
    match parseCluster (a.data.drop 1) with
    | Except.error e => Except.error e
    | Except.ok (os, none) =>
      match getopt rest with
      | Except.error e => Except.error e
      | Except.ok (os2, posArgs) => Except.ok (os ++ os2, posArgs)
    | Except.ok (os, some pending) =>
      match rest with
      | [] => Except.error ("option " ++ pending ++ " requires argument")
      | b :: rest2 =>
        match getopt rest2 with
        | Except.error e => Except.error e
        | Except.ok (os2, posArgs) => Except.ok (os ++ [(pending, b)] ++ os2, posArgs)
  else Except.ok ([], a :: rest)

/-- One iteration of the option loop of parse_args.  An illegal -S
argument is a usage error.  Note the -J branch: the source sets
flag_parallel to True, the same as its default. -/
def applyOpt (o a : String) (cfg : Config) : Except String Config :=
  match o with
  | "-d" => Except.ok cfg
  | "-N" => Except.ok { cfg with binutilsBuild := false }
  | "-n" => Except.ok { cfg with runNinja := false }
  | "-S" =>
    if a = "git" || a = "svn" || a = "git-svn" then
      Except.ok { cfg with scmFlavor := a }
    else Except.error ("illegal SCM flavor " ++ a)
  | "-q" => Except.ok { cfg with echo := false }
  | "-D" => Except.ok { cfg with dryrun := true }
  | "-G" => Except.ok { cfg with includeLlgo := true }
  | "-F" => Except.ok { cfg with doFetch := true }
  | "-J" => Except.ok { cfg with parallel := true }
  | "-X" => Except.ok { cfg with cmakeType := "RelWithDebInfo" }
  | "-T" => Except.ok { cfg with includeTools := false }
  | "-r" => Except.ok { cfg with subvol := some a }
  | "-s" => Except.ok { cfg with snapshot := some a }
  | _ => Except.ok cfg

/-- The option loop of parse_args: fold the parsed options over the
default flags. -/
def applyOpts : List (String × String) → Config → Except String Config
| [], cfg => Except.ok cfg
| (o, a) :: rest, cfg =>
  match applyOpt o a cfg with
  | Except.error e => Except.error e
  | Except.ok cfg2 => applyOpts rest cfg2

/-- Basename the usage text interpolates for %s (sys.argv 0). -/
def progName : String := "setup-llvm-repos.py"

/-- The usage text printed by usage() (lines 537-569). -/
def usageText : String :=
  "    usage:  " ++ progName ++ " [options]\n\n" ++
  "    options:\n" ++
  "    -d    increase debug msg verbosity level\n" ++
  "    -r R  root subvolume is R\n" ++
  "    -s S  snapshot is S\n" ++
  "    -n    stub out ninja build after snapshot creation\n" ++
  "    -N    stub out binutils build after snapshot creation\n" ++
  "    -q    quiet mode (do not echo commands before executing)\n" ++
  "    -S X  use SCM flavor X (either git, svn, or git-svn). Def: git-svn\n" ++
  "    -D    dryrun mode (echo commands but do not execute)\n" ++
  "    -X    set default build type to RelWithDebInfo\n" ++
  "    -T    avoid setting up clang tools\n" ++
  "    -J    run cmake steps serially (default is in parallel)\n" ++
  "    -G    include llgo when setting up repo\n" ++
  "    -F    run \x27git fetch\x27 or \x27svn update\x27 in subvolume\n" ++
  "          before creating snapshot\n\n" ++
  "    Example 1: creates new subvolume \x27llvm-trunk\x27\n\n" ++
  "      " ++ progName ++ " -r llvm-trunk\n\n" ++
  "    Example 2: snapshot subvol \x27llvm-trunk\x27 to create \x27llvm-trunk-snap\x27\n\n" ++
  "      " ++ progName ++ " -r llvm-trunk -s llvm-snap\n\n" ++
  "    Example 2: snapshot subvol \x27llvm-trunk\x27 to create \x27llvm-gronk\x27,\n" ++
  "               stubbing out ninja build\n\n" ++
  "      " ++ progName ++ " -n -r llvm-trunk -s llvm-gronk\n\n    "

/-- usage(): optional error line on stderr, usage text on stdout, exit 1. -/
def usageEvents (msg : String) : List Event :=
  (if msg = "" then [] else [Event.log ("error: " ++ msg ++ "\n")]) ++
  [Event.print usageText]

/-- How parse_args ends: a usage exit, a fatal u.error exit, or the
computed flag set. -/
inductive ParseOutcome
| usageExit (exitCode : Nat)
| fatalExit
| ok (cfg : Config)
deriving DecidableEq

/-- The cmake_flavors validation loop of parse_args: every key of every
flavor dict must be a legal tag. -/
def legalTag : PyKey → Bool
| PyKey.s v => legal_tags.contains v
| PyKey.i _ => false

def validateFlavors (ft : FlavorTable) : Bool :=
  ft.all (fun p => p.2.all (fun q => legalTag q.1))

/-- parse_args: getopt, flag folding, extra-arg and subvol checks (Python
falsiness: a missing OR empty subvol triggers the usage exit), then the
whoami spawn, the root-user check, and the table validation.  `user` is
the whoami output; `root` is the determined ssd root. -/
def parse_args (argv : List String) (user root : String) : List Event × ParseOutcome :=
  match getopt argv with
  | Except.error e => (usageEvents e, ParseOutcome.usageExit 1)
  | Except.ok (optlist, posArgs) =>
    match applyOpts optlist {} with
    | Except.error msg => (usageEvents msg, ParseOutcome.usageExit 1)
    | Except.ok cfg0 =>
      if posArgs != [] then (usageEvents "unknown extra args", ParseOutcome.usageExit 1)
      else if cfg0.subvol.getD "" = "" then
        (usageEvents "specify subvol name with -r", ParseOutcome.usageExit 1)
      else if cfg0.snapshot.isSome && cfg0.subvol.getD "" = "" then
        (usageEvents "specify subvol name with -r", ParseOutcome.usageExit 1)
      else
        let t : List Event := [Event.spawn "whoami"]
        if user = "root" then
          (t ++ [Event.log "error: please do not run this script as root\n"],
           ParseOutcome.fatalExit)
        else if validateFlavors cmake_flavors then
          (t, ParseOutcome.ok { cfg0 with user := user, ssdroot := root })
        else
          (t ++ [Event.log "error: cmake_flavors entry has unknown tag\n"],
           ParseOutcome.fatalExit)

/-- Parallel flag of a successful parse (None when parsing exits). -/
def parsedParallel (argv : List String) : Option Bool :=
  match (parse_args argv "someone" "/ssd").2 with
  | ParseOutcome.ok c => some c.parallel
  | _ => none

/-- How a whole run ends: sys.exit code, or an uncaught Python exception
(which also makes the interpreter exit non-zero). -/
inductive MainOutcome
| exit (code : Nat)
| crash (e : PyErr)
deriving DecidableEq

/-- Map an escaping error to the interpreter outcome: u.error exits 1,
an uncaught KeyError crashes (also a non-zero interpreter exit). -/
def errOutcome : PyErr → MainOutcome
| PyErr.fatal _ => MainOutcome.exit 1
| e => MainOutcome.crash e

/-- The main portion of the script: parse_args, then snapshot
create+build when -s was given, else subvolume creation, then exit(0).
`cwd0` is the starting working directory, `findLines` the output of the
fetch_in_volume find command when it runs. -/
def mainRun (argv : List String) (user root cwd0 : String) (findLines : List String) :
    List Event × MainOutcome :=
  match parse_args argv user root with
  | (t, ParseOutcome.usageExit c) => (t, MainOutcome.exit c)
  | (t, ParseOutcome.fatalExit) => (t, MainOutcome.exit 1)
  | (t, ParseOutcome.ok cfg) =>
    if cfg.snapshot.isSome then
      match do_snapshot_create cfg findLines cwd0 with
      | (t2, Except.error e) => (t ++ t2, errOutcome e)
      | (t2, Except.ok _) => (t ++ t2 ++ do_snapshot_build cfg, MainOutcome.exit 0)
    else (t ++ do_subvol_create cfg cwd0, MainOutcome.exit 0)

/-! ### Definitions supporting the claim statements -/

/-- A sequence of calls into the execution facade. -/
inductive FacadeOp
| cmd (c : String)
| scmd (c : String)
| chd (d : String)
deriving DecidableEq

/-- Run a facade call sequence under the given flags. -/
def runFacade (cfg : Config) (ops : List FacadeOp) : List Event :=
  ops.flatMap (fun op => match op with
    | FacadeOp.cmd c => docmd cfg c
    | FacadeOp.scmd c => doscmd cfg c
    | FacadeOp.chd d => dochdirEvents cfg d)

/-- Every command a repository refresh can spawn. -/
def refreshCmds : List String :=
  ["git fetch", "git svn rebase -l", "svn update",
   "find . -depth -name .git -print", "find . -depth -name .svn -print"]

/-- Remove the early tag from every entry of a flavor table. -/
def stripEarly (ft : FlavorTable) : FlavorTable :=
  ft.map (fun p => (p.1, p.2.filter (fun q => q.1 != PyKey.s "early")))

/-- Whether emit_cmake_cmd_script completes without raising. -/
def emitOk (cfg : Config) (flavors : FlavorTable) (flav : String) : Bool :=
  match (emit_cmake_cmd_script cfg flavors flav).2 with
  | Except.ok _ => true
  | Except.error _ => false

/-- A one-entry table whose single entry is in the bootstrap form and
references a name that is not in the table. -/
def ghostFlavors : FlavorTable :=
  [("bs", [(PyKey.s "ccflav", FVal.pystr "bootstrap.ghost")])]

/-- True when the argument list carries no (non-empty) -r option: getopt
fails, or no parsed option is an -r with a non-empty value. -/
def lacksSubvolFlag (argv : List String) : Bool :=
  match getopt argv with
  | Except.error _ => true
  | Except.ok (opts, _) => opts.all (fun p => p.1 != "-r" || p.2 == "")

/-- The argv of the C2 scenario. -/
def demoSnapArgs : List String := ["-r", "demo-vol", "-s", "demo-snap", "-D"]

/-- The flag set parse_args computes for demoSnapArgs (user demo,
ssd root /ssd). -/
def demoSnapConfig : Config :=
  { subvol := some "demo-vol", snapshot := some "demo-snap", dryrun := true,
    user := "demo", ssdroot := "/ssd" }

/-- A volume-creation flag set with both optional repos enabled, for a
given SCM flavor. -/
def volCfg (flav : String) : Config :=
  { subvol := some "vol", user := "u", ssdroot := "/ssd", scmFlavor := flav,
    includeLlgo := true }

/-! ### Basic trace lemmas -/

theorem applyEvents_append (c : String) (a b : List Event) :
    applyEvents c (a ++ b) = applyEvents (applyEvents c a) b := by
  induction a generalizing c with
  | nil => rfl
  | cons e es ih => cases e <;> simp [applyEvents, ih]

theorem spawnsOf_append (a b : List Event) :
    spawnsOf (a ++ b) = spawnsOf a ++ spawnsOf b := by
  simp [spawnsOf]

theorem logsOf_append (a b : List Event) :
    logsOf (a ++ b) = logsOf a ++ logsOf b := by
  simp [logsOf]

theorem chdirsOf_append (a b : List Event) :
    chdirsOf (a ++ b) = chdirsOf a ++ chdirsOf b := by
  simp [chdirsOf]

theorem writesOf_append (a b : List Event) :
    writesOf (a ++ b) = writesOf a ++ writesOf b := by
  simp [writesOf]

theorem spawnsOf_docmd (cfg : Config) (c : String) :
    spawnsOf (docmd cfg c) = if cfg.dryrun then [] else [c] := by
  cases he : cfg.echo <;> cases hd : cfg.dryrun <;> simp [docmd, spawnsOf, he, hd]

theorem spawnsOf_doscmd (cfg : Config) (c : String) :
    spawnsOf (doscmd cfg c) = if cfg.dryrun then [] else [c] := by
  cases he : cfg.echo <;> cases hd : cfg.dryrun <;> simp [doscmd, spawnsOf, he, hd]

theorem spawnsOf_dochdir (cfg : Config) (d : String) :
    spawnsOf (dochdirEvents cfg d) = [] := by
  cases he : cfg.echo <;> cases hd : cfg.dryrun <;> simp [dochdirEvents, spawnsOf, he, hd]

theorem logsOf_docmd (cfg : Config) (c : String) :
    logsOf (docmd cfg c) = if cfg.echo then ["executing: " ++ c ++ "\n"] else [] := by
  cases he : cfg.echo <;> cases hd : cfg.dryrun <;> simp [docmd, logsOf, he, hd]

theorem logsOf_doscmd (cfg : Config) (c : String) :
    logsOf (doscmd cfg c) = if cfg.echo then ["executing: " ++ c ++ "\n"] else [] := by
  cases he : cfg.echo <;> cases hd : cfg.dryrun <;> simp [doscmd, logsOf, he, hd]

theorem logsOf_dochdir (cfg : Config) (d : String) :
    logsOf (dochdirEvents cfg d) =
      if cfg.echo || cfg.dryrun then ["cd " ++ d ++ "\n"] else [] := by
  cases he : cfg.echo <;> cases hd : cfg.dryrun <;> simp [dochdirEvents, logsOf, he, hd]

theorem chdirsOf_docmd (cfg : Config) (c : String) :
    chdirsOf (docmd cfg c) = [] := by
  cases he : cfg.echo <;> cases hd : cfg.dryrun <;> simp [docmd, chdirsOf, he, hd]

theorem chdirsOf_doscmd (cfg : Config) (c : String) :
    chdirsOf (doscmd cfg c) = [] := by
  cases he : cfg.echo <;> cases hd : cfg.dryrun <;> simp [doscmd, chdirsOf, he, hd]

theorem chdirsOf_dochdir (cfg : Config) (d : String) :
    chdirsOf (dochdirEvents cfg d) = if cfg.dryrun then [] else [d] := by
  cases he : cfg.echo <;> cases hd : cfg.dryrun <;> simp [dochdirEvents, chdirsOf, he, hd]

theorem writesOf_docmd (cfg : Config) (c : String) :
    writesOf (docmd cfg c) = [] := by
  cases he : cfg.echo <;> cases hd : cfg.dryrun <;> simp [docmd, writesOf, he, hd]

theorem writesOf_doscmd (cfg : Config) (c : String) :
    writesOf (doscmd cfg c) = [] := by
  cases he : cfg.echo <;> cases hd : cfg.dryrun <;> simp [doscmd, writesOf, he, hd]

theorem writesOf_dochdir (cfg : Config) (d : String) :
    writesOf (dochdirEvents cfg d) = [] := by
  cases he : cfg.echo <;> cases hd : cfg.dryrun <;> simp [dochdirEvents, writesOf, he, hd]

theorem applyEvents_docmd (cfg : Config) (c cwd : String) :
    applyEvents cwd (docmd cfg c) = cwd := by
  cases he : cfg.echo <;> cases hd : cfg.dryrun <;> simp [docmd, applyEvents, he, hd]

theorem applyEvents_doscmd (cfg : Config) (c cwd : String) :
    applyEvents cwd (doscmd cfg c) = cwd := by
  cases he : cfg.echo <;> cases hd : cfg.dryrun <;> simp [doscmd, applyEvents, he, hd]

theorem applyEvents_dochdir (cfg : Config) (d cwd : String) :
    applyEvents cwd (dochdirEvents cfg d) = chdirCwd cfg cwd d := by
  cases he : cfg.echo <;> cases hd : cfg.dryrun <;>
    simp [dochdirEvents, applyEvents, chdirCwd, he, hd]

/-! ### Claim theorems -/

/-- Claim C1.  The claim says -J disables the parallel-execution flag.
In the code the -J branch of parse_args assigns True to flag_parallel,
which is already its default, so the flag is enabled both with and
without -J; the script's own usage text documents -J as "run cmake steps
serially", so this is a bug in the code, witnessed here by evaluating the
parser at a -J invocation. -/
theorem c1_dash_J_leaves_parallel_enabled :
    parsedParallel ["-J", "-r", "vol"] = some true ∧
    parsedParallel ["-r", "vol"] = some true := by decide

/-- Claim C2.  The claim says `-r demo-vol -s demo-snap -D` prints every
dry-run action and exits 0.  In the code, emit_cmake_cmd_script reads the
flavor dict with the integer key 2 (`extra = tup[2]`; the never-called
select_cmake_extras shows the intended read), which raises KeyError for
every flavor, dry-run included, so the run crashes with a non-zero exit
before printing any cmake command: the parse yields the expected dry-run
flag set, the whole run ends in the KeyError crash, and no flavor's
emit_cmake_cmd_script can complete (hence no dict iteration order
reaches exit 0). -/
theorem c2_dryrun_snapshot_run_crashes :
    (parse_args demoSnapArgs "demo" "/ssd").2 = ParseOutcome.ok demoSnapConfig ∧
    (mainRun demoSnapArgs "demo" "/ssd" "/home/demo" []).2 =
      MainOutcome.crash (PyErr.keyError (PyKey.i 2)) ∧
    cmake_flavors.all
      (fun p => !(emitOk demoSnapConfig cmake_flavors p.1)) = true := by decide

/-- Claim C3, counterexample.  The claim says resolving a bootstrap-form
entry fails fatally when the referenced name is absent from the table.
In ghostFlavors the entry "bs" has the bootstrap form referencing
"ghost", no entry named "ghost" exists, and select_compiler_flavor still
resolves it successfully (to compiler paths under the ghost directory),
so the claimed fatal failure does not happen. -/
theorem c3_counterexample_dangling_reference_accepted :
    emitOk { demoSnapConfig with dryrun := false } ghostFlavors "bs" = false ∧
    select_compiler_flavor ghostFlavors "/ssd" "vol" "bs" =
      Except.ok (compilerArgs
        "-DCMAKE_RANLIB=/ssd/vol/ghost/bin/llvm-ranlib -DCMAKE_AR=/ssd/vol/ghost/bin/llvm-ar "
        "/ssd/vol/ghost/bin/clang" "/ssd/vol/ghost/bin/clang++") ∧
    ghostFlavors.lookup "ghost" = none ∧
    fdictGet [(PyKey.s "ccflav", FVal.pystr "bootstrap.ghost")] (PyKey.s "ccflav") =
      some (FVal.pystr "bootstrap.ghost") ∧
    bootstrapMatch "bootstrap.ghost" = some "ghost" :=
  ⟨rfl, rfl, rfl, rfl, rfl⟩

/-- Claim C9, counterexample.  The claim says do_subvol_create leaves the
working directory changed when it returns.  Evaluating the embedded
function at a concrete flag set and start directory shows the working
directory after the trace equals the start directory: the function saves
os.getcwd() on entry and dochdirs back to it as its last step. -/
theorem c9_counterexample_workdir_restored :
    applyEvents "/home/me"
      (do_subvol_create { subvol := some "vol", user := "u", ssdroot := "/ssd" } "/home/me")
      = "/home/me" := by decide

/-- Claim C5, counterexample.  The claim says dry-run spawns zero
external processes and logs the same text as non-dry-run for every
command sequence.  But (a) the refresh sequence fetch_in_volume spawns
the VCS-metadata find command even in dry-run, because u.docmdlines is
called outside the dry-run gate, and (b) with echoing suppressed (-q),
dochdir logs the cd line in dry-run only, so the logged text differs. -/
theorem c5_counterexample_dryrun_not_silent :
    spawnsOf (fetch_in_volume { demoSnapConfig with subvol := some "vol" } [] "/h") ≠ [] ∧
    logsOf (runFacade { volCfg "git-svn" with echo := false, dryrun := true }
        [FacadeOp.chd "x"]) ≠
      logsOf (runFacade { volCfg "git-svn" with echo := false } [FacadeOp.chd "x"]) := by
  decide

/-- Claim C10.  During volume provisioning the optional extra-tools and
llgo repositories select their checkout method by the inverted test
(`if flag_scm_flavor == "git"` use svn checkout from the read-only
mirror, else git clone), while the main, frontend and runtime
repositories use `if flag_scm_flavor == "svn"` use svn checkout, else
git clone: under flavor git the optional repos are fetched with svn co
while the main repos are cloned with git, and under svn or git-svn the
optional repos are cloned with git. -/
theorem c10_optional_repos_inverted_checkout_method :
    ("svn co http://llvm.org/svn/llvm-project/clang-tools-extra/trunk extra" ∈
        spawnsOf (do_subvol_create (volCfg "git") "/h") ∧
     "svn co http://llvm.org/svn/llvm-project/llgo/trunk llgo" ∈
        spawnsOf (do_subvol_create (volCfg "git") "/h") ∧
     "git clone http://llvm.org/git/llvm.git" ∈
        spawnsOf (do_subvol_create (volCfg "git") "/h") ∧
     "git clone http://llvm.org/git/clang.git" ∈
        spawnsOf (do_subvol_create (volCfg "git") "/h") ∧
     "git clone http://llvm.org/git/compiler-rt.git" ∈
        spawnsOf (do_subvol_create (volCfg "git") "/h") ∧
     "git clone http://llvm.org/git/clang-tools-extra.git extra" ∉
        spawnsOf (do_subvol_create (volCfg "git") "/h")) ∧
    ("git clone http://llvm.org/git/clang-tools-extra.git extra" ∈
        spawnsOf (do_subvol_create (volCfg "svn") "/h") ∧
     "git clone http://llvm.org/git/llgo.git llgo" ∈
        spawnsOf (do_subvol_create (volCfg "svn") "/h") ∧
     "svn co https://u@llvm.org/svn/llvm-project/llvm/trunk llvm" ∈
        spawnsOf (do_subvol_create (volCfg "svn") "/h") ∧
     "svn co http://llvm.org/svn/llvm-project/cfe/trunk clang" ∈
        spawnsOf (do_subvol_create (volCfg "svn") "/h") ∧
     "svn co http://llvm.org/svn/llvm-project/clang-tools-extra/trunk extra" ∉
        spawnsOf (do_subvol_create (volCfg "svn") "/h")) ∧
    ("git clone http://llvm.org/git/clang-tools-extra.git extra" ∈
        spawnsOf (do_subvol_create (volCfg "git-svn") "/h") ∧
     "git clone http://llvm.org/git/llgo.git llgo" ∈
        spawnsOf (do_subvol_create (volCfg "git-svn") "/h") ∧
     "git clone http://llvm.org/git/llvm.git" ∈
        spawnsOf (do_subvol_create (volCfg "git-svn") "/h")) := by decide

theorem collect_cmake_results_trace (rs : List Nat) :
    (collect_cmake_results rs).1 = rs.map (fun _ => Event.wait 600) := by
  induction rs with
  | nil => rfl
  | cons r rest ih => simp [collect_cmake_results, ih]

theorem collect_cmake_results_flag (rs : List Nat) :
    (collect_cmake_results rs).2 = rs.any (fun r => r != 0) := by
  induction rs with
  | nil => rfl
  | cons r rest ih => simp [collect_cmake_results, ih]

/-- Claim C6.  The collection phase of do_setup_cmake performs exactly
one wait per dispatched result, each with the fixed 600 upper bound;
every result is waited on even when some result already failed (the
trace always has full length, fail-late); and the single aggregate fatal
error is raised exactly when at least one result is non-zero, only after
the loop over all results. -/
theorem c6_parallel_results_fail_late (results : List Nat) :
    (finish_setup_cmake results).1 = results.map (fun _ => Event.wait 600) ∧
    (finish_setup_cmake results).1.length = results.length ∧
    ((finish_setup_cmake results).2 =
        Except.error (PyErr.fatal "one or more cmake cmds failed") ↔
      ∃ r ∈ results, r ≠ 0) ∧
    ((finish_setup_cmake results).2 = Except.ok () ↔ ∀ r ∈ results, r = 0) := by
  have h1 : (finish_setup_cmake results).1 = results.map (fun _ => Event.wait 600) := by
    unfold finish_setup_cmake
    split <;> simp [collect_cmake_results_trace]
  refine ⟨h1, by simp [h1], ?_, ?_⟩
  · unfold finish_setup_cmake
    split <;> rename_i hflag
    · rw [collect_cmake_results_flag] at hflag
      simp only [List.any_eq_true, bne_iff_ne] at hflag
      simpa using hflag
    · rw [collect_cmake_results_flag] at hflag
      simp only [Bool.not_eq_true, List.any_eq_false, bne_iff_ne] at hflag
      simp only [ne_eq, not_not] at hflag
      simp only [reduceCtorEq, false_iff, not_exists, not_and, ne_eq, not_not]
      exact fun r hr => hflag r hr
  · unfold finish_setup_cmake
    split <;> rename_i hflag
    · rw [collect_cmake_results_flag] at hflag
      simp only [List.any_eq_true, bne_iff_ne] at hflag
      obtain ⟨r, hr, hne⟩ := hflag
      simp only [reduceCtorEq, false_iff, not_forall]
      exact ⟨r, hr, hne⟩
    · rw [collect_cmake_results_flag] at hflag
      simp only [Bool.not_eq_true, List.any_eq_false, bne_iff_ne] at hflag
      simp only [ne_eq, not_not] at hflag
      simp only [true_iff]
      exact fun r hr => hflag r hr

/-- Claim C3, amended and proved.  Resolving a bootstrap-form entry never
consults the table for the referenced name: whenever an entry's ccflav
matches the bootstrap pattern with captured name tb, select_compiler_flavor
returns the compiler flags rooted at root/subvol/tb, with no fatal error,
whether or not tb names a table entry; and the shipped table's only
bootstrap entry, whose ccflav is "bootstrap=build.opt", always fails
fatally with the bad-ccflav error because the resolver only recognises
the dotted form, independently of the reference. -/
theorem c3_bootstrap_reference_never_checked (ft : FlavorTable)
    (root subvol flav : String) (fd : FDict) (cc tb : String)
    (hlook : ft.lookup flav = some fd)
    (hcc : fdictGet fd (PyKey.s "ccflav") = some (FVal.pystr cc))
    (hm : bootstrapMatch cc = some tb) :
    select_compiler_flavor ft root subvol flav =
      Except.ok (compilerArgs
        ("-DCMAKE_RANLIB=" ++ (root ++ "/" ++ subvol ++ "/" ++ tb) ++
          "/bin/llvm-ranlib -DCMAKE_AR=" ++ (root ++ "/" ++ subvol ++ "/" ++ tb) ++
          "/bin/llvm-ar ")
        ((root ++ "/" ++ subvol ++ "/" ++ tb) ++ "/bin/clang")
        ((root ++ "/" ++ subvol ++ "/" ++ tb) ++ "/bin/clang++")) ∧
    select_compiler_flavor cmake_flavors root subvol "bootstrap.reldb" =
      Except.error
        (PyErr.fatal "internal error -- bad ccflav setting bootstrap=build.opt") := by
  have hgcc : cc ≠ "gcc" := by
    intro h
    rw [h, show bootstrapMatch "gcc" = none from rfl] at hm
    exact Option.noConfusion hm
  have hclang : cc ≠ "clang" := by
    intro h
    rw [h, show bootstrapMatch "clang" = none from rfl] at hm
    exact Option.noConfusion hm
  have hdef : cc ≠ "def" := by
    intro h
    rw [h, show bootstrapMatch "def" = none from rfl] at hm
    exact Option.noConfusion hm
  constructor
  · simp [select_compiler_flavor, hlook, hcc, bootstrap_tooldir, hm, FVal.asStr,
      hgcc, hclang, hdef]
  · rfl

/-- Witness for C3: the amended theorem applied to the concrete dangling
table ghostFlavors (entry "bs" referencing the absent name "ghost"). -/
theorem c3_bootstrap_reference_never_checked_witness :
    select_compiler_flavor ghostFlavors "/r" "v" "bs" =
      Except.ok (compilerArgs
        ("-DCMAKE_RANLIB=" ++ ("/r" ++ "/" ++ "v" ++ "/" ++ "ghost") ++
          "/bin/llvm-ranlib -DCMAKE_AR=" ++ ("/r" ++ "/" ++ "v" ++ "/" ++ "ghost") ++
          "/bin/llvm-ar ")
        (("/r" ++ "/" ++ "v" ++ "/" ++ "ghost") ++ "/bin/clang")
        (("/r" ++ "/" ++ "v" ++ "/" ++ "ghost") ++ "/bin/clang++")) ∧
    select_compiler_flavor cmake_flavors "/r" "v" "bootstrap.reldb" =
      Except.error
        (PyErr.fatal "internal error -- bad ccflav setting bootstrap=build.opt") :=
  c3_bootstrap_reference_never_checked ghostFlavors "/r" "v" "bs"
    [(PyKey.s "ccflav", FVal.pystr "bootstrap.ghost")] "bootstrap.ghost" "ghost"
    rfl rfl (by decide)

theorem fdictGet_filter_ne (fd : FDict) (bad k : PyKey) (hk : k ≠ bad) :
    fdictGet (fd.filter (fun q => q.1 != bad)) k = fdictGet fd k := by
  induction fd with
  | nil => rfl
  | cons q rest ih =>
    obtain ⟨qk, qv⟩ := q
    simp only [fdictGet] at ih ⊢
    by_cases hb : qk = bad
    · have h1 : ((qk, qv).1 != bad) = false := by simp [hb]
      have h2 : (k == qk) = false := by
        subst hb; exact beq_eq_false_iff_ne.mpr hk
      simp only [List.filter, h1]
      rw [List.lookup, h2]
      exact ih
    · have h1 : ((qk, qv).1 != bad) = true := by simp [hb]
      simp only [List.filter, h1]
      by_cases hkq : k = qk
      · rw [List.lookup, List.lookup, beq_iff_eq.mpr hkq]
      · rw [List.lookup, List.lookup, beq_eq_false_iff_ne.mpr hkq]
        exact ih

theorem lookup_stripEarly (ft : FlavorTable) (flav : String) :
    (stripEarly ft).lookup flav =
      (ft.lookup flav).map (fun fd => fd.filter (fun q => q.1 != PyKey.s "early")) := by
  induction ft with
  | nil => rfl
  | cons p rest ih =>
    obtain ⟨name, fd⟩ := p
    simp only [stripEarly, List.map] at ih ⊢
    by_cases h : flav = name
    · rw [List.lookup, List.lookup, beq_iff_eq.mpr h]
      rfl
    · rw [List.lookup, List.lookup, beq_eq_false_iff_ne.mpr h]
      exact ih

theorem bootstrap_tooldir_stripEarly (ft : FlavorTable) (root subvol flav : String) :
    bootstrap_tooldir (stripEarly ft) root subvol flav =
      bootstrap_tooldir ft root subvol flav := by
  unfold bootstrap_tooldir
  rw [lookup_stripEarly]
  cases ft.lookup flav with
  | none => rfl
  | some fd =>
    simp only [Option.map_some']
    rw [fdictGet_filter_ne fd (PyKey.s "early") (PyKey.s "ccflav") (by decide)]

theorem select_cmake_type_stripEarly (ft : FlavorTable) (d flav : String) :
    select_cmake_type (stripEarly ft) d flav = select_cmake_type ft d flav := by
  unfold select_cmake_type
  rw [lookup_stripEarly]
  cases ft.lookup flav with
  | none => rfl
  | some fd =>
    simp only [Option.map_some']
    rw [fdictGet_filter_ne fd (PyKey.s "early") (PyKey.s "cmflav") (by decide)]

theorem select_compiler_flavor_stripEarly (ft : FlavorTable) (root subvol flav : String) :
    select_compiler_flavor (stripEarly ft) root subvol flav =
      select_compiler_flavor ft root subvol flav := by
  unfold select_compiler_flavor
  rw [bootstrap_tooldir_stripEarly, lookup_stripEarly]
  cases ft.lookup flav with
  | none => rfl
  | some fd =>
    simp only [Option.map_some']
    rw [fdictGet_filter_ne fd (PyKey.s "early") (PyKey.s "ccflav") (by decide)]

theorem select_dyld_library_path_stripEarly (ft : FlavorTable) (root subvol flav : String) :
    select_dyld_library_path (stripEarly ft) root subvol flav =
      select_dyld_library_path ft root subvol flav := by
  unfold select_dyld_library_path
  rw [bootstrap_tooldir_stripEarly]

theorem emit_cmake_cmd_script_stripEarly (cfg : Config) (ft : FlavorTable) (flav : String) :
    emit_cmake_cmd_script cfg (stripEarly ft) flav = emit_cmake_cmd_script cfg ft flav := by
  unfold emit_cmake_cmd_script
  rw [lookup_stripEarly, select_compiler_flavor_stripEarly,
    select_dyld_library_path_stripEarly, select_cmake_type_stripEarly]
  cases ft.lookup flav with
  | none => rfl
  | some tup =>
    simp only [Option.map_some']
    rw [fdictGet_filter_ne tup (PyKey.s "early") (PyKey.i 2) (by decide)]

theorem setup_cmake_loop_stripEarly (cfg : Config) (ft : FlavorTable)
    (l : List (String × FDict)) :
    setup_cmake_loop cfg (stripEarly ft) (stripEarly l) = setup_cmake_loop cfg ft l := by
  induction l with
  | nil => rfl
  | cons p rest ih =>
    show setup_cmake_loop cfg (stripEarly ft)
      ((p.1, p.2.filter (fun q => q.1 != PyKey.s "early")) :: stripEarly rest) = _
    rw [setup_cmake_loop, setup_cmake_loop, emit_cmake_cmd_script_stripEarly, ih]

/-- Claim C4.  The claim (and the table's own comment) says exactly the
early-tagged entries are configured at snapshot-creation time.  In the
code the early tag is never read: do_setup_cmake behaves identically on
any table with every early tag removed, it iterates all six entries of
the table while only opt, dbg and rel carry the tag (cov does not), and
with the shipped table its first iteration raises the tup-index-2
KeyError, so in fact no entry, early or not, completes snapshot-time
configuration. -/
theorem c4_early_marker_never_consulted :
    (∀ (cfg : Config) (ft : FlavorTable),
      do_setup_cmake cfg (stripEarly ft) = do_setup_cmake cfg ft) ∧
    cmake_flavors.map Prod.fst =
      ["opt", "dbg", "rel", "cov", "clbootstrap.rel", "bootstrap.reldb"] ∧
    (cmake_flavors.filter (fun p => (fdictGet p.2 (PyKey.s "early")).isSome)).map Prod.fst =
      ["opt", "dbg", "rel"] ∧
    fdictGet
      [(PyKey.s "cmflav", FVal.pynone), (PyKey.s "ccflav", FVal.pystr "def"),
       (PyKey.s "extra", FVal.pystr
         "-DCMAKE_C_FLAGS=\x27--coverage\x27 -DCMAKE_CXX_FLAGS=\x27--coverage\x27")]
      (PyKey.s "early") = none ∧
    (do_setup_cmake demoSnapConfig cmake_flavors).2 =
      Except.error (PyErr.keyError (PyKey.i 2)) := by
  refine ⟨?_, by decide, by decide, by decide, rfl⟩
  intro cfg ft
  unfold do_setup_cmake
  exact setup_cmake_loop_stripEarly cfg ft ft

theorem applyEvents_gitSvnSetup (cfg : Config) (sub dir cwd : String) :
    applyEvents cwd (gitSvnSetup cfg sub dir) = chdirCwd cfg cwd dir := by
  simp [gitSvnSetup, applyEvents_append, applyEvents_dochdir, applyEvents_doscmd]

theorem spawnsOf_nil : spawnsOf [] = [] := rfl

theorem logsOf_nil : logsOf [] = [] := rfl

theorem chdirsOf_nil : chdirsOf [] = [] := rfl

theorem writesOf_nil : writesOf [] = [] := rfl

theorem applyEvents_eq_of_no_chdir (t : List Event) (c : String)
    (h : chdirsOf t = []) : applyEvents c t = c := by
  induction t generalizing c with
  | nil => rfl
  | cons e es ih =>
    cases e with
    | chdir d => simp [chdirsOf] at h
    | log s =>
      simp only [applyEvents]
      exact ih _ (by simpa [chdirsOf] using h)
    | print s =>
      simp only [applyEvents]
      exact ih _ (by simpa [chdirsOf] using h)
    | spawn s =>
      simp only [applyEvents]
      exact ih _ (by simpa [chdirsOf] using h)
    | write s =>
      simp only [applyEvents]
      exact ih _ (by simpa [chdirsOf] using h)
    | wait n =>
      simp only [applyEvents]
      exact ih _ (by simpa [chdirsOf] using h)

/-- Claim C9, amended and proved.  do_subvol_create does not leave the
working directory changed: for every flag set, starting from any
absolute directory, the directory after its trace equals the start
directory, because the function saves os.getcwd() on entry and changes
back to it as its final step (and in dry-run mode never changes
directory at all). -/
theorem c9_subvol_create_restores_workdir (cfg : Config) (here : String)
    (h : strStartsWith here "/" = true) :
    applyEvents here (do_subvol_create cfg here) = here := by
  cases hd : cfg.dryrun
  · simp only [do_subvol_create, applyEvents_append, applyEvents_dochdir]
    simp [chdirCwd, hd, resolveDir, h]
  · apply applyEvents_eq_of_no_chdir
    simp [do_subvol_create, chdirsOf_append, chdirsOf_docmd, chdirsOf_doscmd,
      chdirsOf_dochdir, chdirsOf_nil, gitSvnSetup, hd, apply_ite chdirsOf]

/-- Witness for C9: the amended theorem applied to a concrete dry-run
flag set and start directory. -/
theorem c9_subvol_create_restores_workdir_witness :
    strStartsWith "/work/dir" "/" = true ∧
    applyEvents "/work/dir"
      (do_subvol_create { demoSnapConfig with snapshot := none } "/work/dir") =
      "/work/dir" :=
  ⟨by decide,
   c9_subvol_create_restores_workdir { demoSnapConfig with snapshot := none }
     "/work/dir" (by decide)⟩

theorem spawnsOf_spawn_cons (s : String) (t : List Event) :
    spawnsOf (Event.spawn s :: t) = s :: spawnsOf t := by
  simp [spawnsOf]

theorem runFacade_cons (cfg : Config) (op : FacadeOp) (rest : List FacadeOp) :
    runFacade cfg (op :: rest) = runFacade cfg [op] ++ runFacade cfg rest := by
  simp [runFacade]

theorem spawnsOf_do_fetch_dry (cfg : Config) (hd : cfg.dryrun = true)
    (fl w c : String) : spawnsOf (do_fetch cfg fl w c) = [] := by
  by_cases h1 : fl = "git" <;> by_cases h2 : fl = "git-svn" <;>
    simp [do_fetch, h1, h2, spawnsOf_append, spawnsOf_docmd, spawnsOf_dochdir, hd]

theorem spawnsOf_fetch_dry (cfg : Config) (hd : cfg.dryrun = true)
    (hs : cfg.scmFlavor ≠ "svn") (lines : List String) (cwd : String) :
    spawnsOf (fetch_in_volume cfg lines cwd) = ["find . -depth -name .git -print"] := by
  have hlines : ∀ ls : List String,
      spawnsOf (ls.flatMap (fun line => do_fetch cfg cfg.scmFlavor line.trim
        (chdirCwd cfg (chdirCwd cfg cwd
          (cfg.ssdroot ++ "/" ++ cfg.subvol.getD "")) "llvm"))) = [] := by
    intro ls
    induction ls with
    | nil => rfl
    | cons l rest ih =>
      simp [List.flatMap_cons, spawnsOf_append, spawnsOf_do_fetch_dry cfg hd, ih]
  simp [fetch_in_volume, spawnsOf_append, spawnsOf_dochdir,
    spawnsOf_do_fetch_dry cfg hd, hs, hlines, spawnsOf_spawn_cons, spawnsOf_nil]

/-- Claim C5, amended and proved.  For every sequence of calls to the
execution facade (docmd / doscmd / dochdir) with command echoing enabled
(the default), dry-run mode produces exactly the logged action text of
non-dry-run mode while spawning no process, changing no directory and
writing no file; but the facade is not the whole story: the repository
refresh (fetch_in_volume) reads the VCS-metadata directories through
u.docmdlines, which is outside the dry-run gate, so a dry run of the
refresh still spawns exactly the find enumeration command (and with
echoing suppressed, dry-run logs cd lines that non-dry-run does not:
see the counterexample). -/
theorem c5_dryrun_same_logs_no_effects (cfg : Config) (ops : List FacadeOp)
    (he : cfg.echo = true) :
    logsOf (runFacade { cfg with dryrun := true } ops) =
      logsOf (runFacade { cfg with dryrun := false } ops) ∧
    spawnsOf (runFacade { cfg with dryrun := true } ops) = [] ∧
    chdirsOf (runFacade { cfg with dryrun := true } ops) = [] ∧
    writesOf (runFacade { cfg with dryrun := true } ops) = [] ∧
    (cfg.scmFlavor ≠ "svn" →
      ∀ (lines : List String) (cwd : String),
        spawnsOf (fetch_in_volume { cfg with dryrun := true } lines cwd) =
          ["find . -depth -name .git -print"]) := by
  have hlog : ∀ op : FacadeOp,
      logsOf (runFacade { cfg with dryrun := true } [op]) =
        logsOf (runFacade { cfg with dryrun := false } [op]) := by
    intro op
    cases op <;> simp [runFacade, logsOf_docmd, logsOf_doscmd, logsOf_dochdir, he]
  have hspawn : ∀ op : FacadeOp,
      spawnsOf (runFacade { cfg with dryrun := true } [op]) = [] := by
    intro op
    cases op <;> simp [runFacade, spawnsOf_docmd, spawnsOf_doscmd, spawnsOf_dochdir]
  have hchdir : ∀ op : FacadeOp,
      chdirsOf (runFacade { cfg with dryrun := true } [op]) = [] := by
    intro op
    cases op <;> simp [runFacade, chdirsOf_docmd, chdirsOf_doscmd, chdirsOf_dochdir]
  have hwrite : ∀ op : FacadeOp,
      writesOf (runFacade { cfg with dryrun := true } [op]) = [] := by
    intro op
    cases op <;> simp [runFacade, writesOf_docmd, writesOf_doscmd, writesOf_dochdir]
  refine ⟨?_, ?_, ?_, ?_, ?_⟩
  · induction ops with
    | nil => rfl
    | cons op rest ih =>
      rw [runFacade_cons { cfg with dryrun := true } op rest,
        runFacade_cons { cfg with dryrun := false } op rest,
        logsOf_append, logsOf_append, ih, hlog op]
  · induction ops with
    | nil => rfl
    | cons op rest ih =>
      rw [runFacade_cons { cfg with dryrun := true } op rest,
        spawnsOf_append, ih, hspawn op]
      rfl
  · induction ops with
    | nil => rfl
    | cons op rest ih =>
      rw [runFacade_cons { cfg with dryrun := true } op rest,
        chdirsOf_append, ih, hchdir op]
      rfl
  · induction ops with
    | nil => rfl
    | cons op rest ih =>
      rw [runFacade_cons { cfg with dryrun := true } op rest,
        writesOf_append, ih, hwrite op]
      rfl
  · intro hs lines cwd
    exact spawnsOf_fetch_dry { cfg with dryrun := true } rfl (by simpa using hs) lines cwd

/-- Witness for C5: the amended theorem applied to a concrete echoing
flag set and facade sequence, with the conclusions instantiated. -/
theorem c5_dryrun_same_logs_no_effects_witness :
    (volCfg "git-svn").echo = true ∧
    logsOf (runFacade { volCfg "git-svn" with dryrun := true }
        [FacadeOp.cmd "ls", FacadeOp.chd "/tmp"]) =
      logsOf (runFacade { volCfg "git-svn" with dryrun := false }
        [FacadeOp.cmd "ls", FacadeOp.chd "/tmp"]) ∧
    spawnsOf (runFacade { volCfg "git-svn" with dryrun := true }
        [FacadeOp.cmd "ls", FacadeOp.chd "/tmp"]) = [] :=
  ⟨rfl,
   (c5_dryrun_same_logs_no_effects (volCfg "git-svn")
     [FacadeOp.cmd "ls", FacadeOp.chd "/tmp"] rfl).1,
   (c5_dryrun_same_logs_no_effects (volCfg "git-svn")
     [FacadeOp.cmd "ls", FacadeOp.chd "/tmp"] rfl).2.1⟩

theorem applyOpt_subvol_empty (o a : String) (cfg c : Config)
    (hra : o = "-r" → a = "")
    (h0 : cfg.subvol.getD "" = "")
    (he : applyOpt o a cfg = Except.ok c) :
    c.subvol.getD "" = "" := by
  unfold applyOpt at he
  split at he
  all_goals try split_ifs at he
  all_goals
    first
      | exact Except.noConfusion he
      | (cases he; first | exact h0 | simp [hra rfl])

theorem applyOpts_subvol_empty (opts : List (String × String)) (cfg c : Config)
    (hall : ∀ p ∈ opts, p.1 = "-r" → p.2 = "")
    (h0 : cfg.subvol.getD "" = "")
    (he : applyOpts opts cfg = Except.ok c) :
    c.subvol.getD "" = "" := by
  induction opts generalizing cfg with
  | nil =>
    simp only [applyOpts] at he
    cases he
    exact h0
  | cons p rest ih =>
    obtain ⟨o, a⟩ := p
    have hrest : ∀ q ∈ rest, q.1 = "-r" → q.2 = "" :=
      fun q hq => hall q (List.mem_cons_of_mem _ hq)
    simp only [applyOpts] at he
    cases hstep : applyOpt o a cfg with
    | error e => rw [hstep] at he; exact Except.noConfusion he
    | ok cfg2 =>
      rw [hstep] at he
      apply ih <;>
        first
          | exact applyOpt_subvol_empty o a cfg cfg2
              (hall (o, a) (List.mem_cons_self _ _)) h0 hstep
          | exact he
          | exact hrest

theorem usageEvents_no_side_effects (msg : String) :
    spawnsOf (usageEvents msg) = [] ∧ chdirsOf (usageEvents msg) = [] ∧
    writesOf (usageEvents msg) = [] ∧ Event.print usageText ∈ usageEvents msg := by
  by_cases hm : msg = "" <;>
    simp [usageEvents, spawnsOf, chdirsOf, writesOf, hm]

/-- Claim C7.  For every invocation whose argument list carries no
volume-name flag -r (with a non-empty value), parse_args ends in the
usage exit with code 1, its trace is exactly the usage output (the error
line and the usage text), and that trace spawns no process, changes no
directory and writes no file: the subvolume check precedes the whoami
spawn and every other effect. -/
theorem c7_missing_subvol_flag_usage_exit (argv : List String) (user root : String)
    (h : lacksSubvolFlag argv = true) :
    ∃ msg, parse_args argv user root = (usageEvents msg, ParseOutcome.usageExit 1) ∧
      spawnsOf ((parse_args argv user root).1) = [] ∧
      chdirsOf ((parse_args argv user root).1) = [] ∧
      writesOf ((parse_args argv user root).1) = [] ∧
      Event.print usageText ∈ (parse_args argv user root).1 := by
  unfold lacksSubvolFlag at h
  cases hg : getopt argv with
  | error e =>
    rw [hg] at h
    refine ⟨e, ?_, ?_⟩
    · simp [parse_args, hg]
    · have hu := usageEvents_no_side_effects e
      simp only [parse_args, hg]
      exact ⟨hu.1, hu.2.1, hu.2.2.1, hu.2.2.2⟩
  | ok pr =>
    obtain ⟨opts, posArgs⟩ := pr
    rw [hg] at h
    have hall : ∀ p ∈ opts, p.1 = "-r" → p.2 = "" := by
      intro p hp hr
      have := List.all_eq_true.mp h p hp
      simp only [Bool.or_eq_true, bne_iff_ne, beq_iff_eq] at this
      cases this with
      | inl hne => exact absurd hr hne
      | inr hv => exact hv
    cases ha : applyOpts opts {} with
    | error msg =>
      refine ⟨msg, ?_, ?_⟩
      · simp [parse_args, hg, ha]
      · have hu := usageEvents_no_side_effects msg
        simp only [parse_args, hg, ha]
        exact ⟨hu.1, hu.2.1, hu.2.2.1, hu.2.2.2⟩
    | ok cfg0 =>
      have hsub : cfg0.subvol.getD "" = "" :=
        applyOpts_subvol_empty opts {} cfg0 hall rfl ha
      by_cases hpos : posArgs = []
      · refine ⟨"specify subvol name with -r", ?_, ?_⟩
        · simp [parse_args, hg, ha, hpos, hsub]
        · have hu := usageEvents_no_side_effects "specify subvol name with -r"
          simp only [parse_args, hg, ha]
          simp only [hpos, bne_self_eq_false, if_false, Bool.false_eq_true]
          simp only [hsub, if_pos]
          exact ⟨hu.1, hu.2.1, hu.2.2.1, hu.2.2.2⟩
      · refine ⟨"unknown extra args", ?_, ?_⟩
        · simp [parse_args, hg, ha, hpos]
        · have hu := usageEvents_no_side_effects "unknown extra args"
          simp only [parse_args, hg, ha]
          have hbne : (posArgs != []) = true := bne_iff_ne.mpr hpos
          simp only [hbne, if_true]
          exact ⟨hu.1, hu.2.1, hu.2.2.1, hu.2.2.2⟩

/-- Witness for C7: the theorem applied to the concrete argument list
consisting of only the dry-run flag. -/
theorem c7_missing_subvol_flag_usage_exit_witness :
    lacksSubvolFlag ["-D"] = true ∧
    ∃ msg, parse_args ["-D"] "demo" "/ssd" = (usageEvents msg, ParseOutcome.usageExit 1) ∧
      spawnsOf ((parse_args ["-D"] "demo" "/ssd").1) = [] ∧
      chdirsOf ((parse_args ["-D"] "demo" "/ssd").1) = [] ∧
      writesOf ((parse_args ["-D"] "demo" "/ssd").1) = [] ∧
      Event.print usageText ∈ (parse_args ["-D"] "demo" "/ssd").1 :=
  ⟨by decide, c7_missing_subvol_flag_usage_exit ["-D"] "demo" "/ssd" (by decide)⟩

theorem isPrefixOf_append_self (a b : List Char) : a.isPrefixOf (a ++ b) = true := by
  induction a with
  | nil => simp [List.isPrefixOf]
  | cons c cs ih => simp [List.isPrefixOf, ih]

theorem str_append_ne (p x q : String) (h : p.data.isPrefixOf q.data = false) :
    p ++ x ≠ q := by
  intro he
  have hd : p.data ++ x.data = q.data := by
    rw [← String.data_append]
    exact congrArg String.data he
  have ht : p.data.isPrefixOf q.data = true := by
    rw [← hd]
    exact isPrefixOf_append_self p.data x.data
  rw [ht] at h
  exact Bool.noConfusion h

theorem snapCmd_notin_refreshCmds (cfg : Config) : snapCmd cfg ∉ refreshCmds := by
  intro hm
  simp only [refreshCmds, snapCmd, List.mem_cons, List.not_mem_nil, or_false] at hm
  rcases hm with h | h | h | h | h <;>
    exact str_append_ne "snapshotutil.py mksnap " _ _ (by decide) h

theorem spawnsOf_do_fetch_sub (cfg : Config) (fl w c : String) :
    ∀ s ∈ spawnsOf (do_fetch cfg fl w c), s ∈ refreshCmds := by
  intro s hs
  have hcases : s = "git fetch" ∨ s = "git svn rebase -l" ∨ s = "svn update" := by
    by_cases h1 : fl = "git" <;> by_cases h2 : fl = "git-svn" <;>
      cases hdry : cfg.dryrun <;>
        simp [do_fetch, h1, h2, hdry, spawnsOf_append, spawnsOf_docmd,
          spawnsOf_dochdir, spawnsOf_nil] at hs <;>
        tauto
  rcases hcases with h | h | h <;> simp [refreshCmds, h]

theorem spawnsOf_fetch_in_volume_sub (cfg : Config) (lines : List String) (cwd : String) :
    ∀ s ∈ spawnsOf (fetch_in_volume cfg lines cwd), s ∈ refreshCmds := by
  have hflat : ∀ (ls : List String) (c2 : String),
      ∀ t ∈ spawnsOf (ls.flatMap (fun line => do_fetch cfg cfg.scmFlavor line.trim c2)),
        t ∈ refreshCmds := by
    intro ls c2
    induction ls with
    | nil => intro t ht; simp [spawnsOf_nil] at ht
    | cons l rest ih =>
      intro t ht
      simp only [List.flatMap_cons, spawnsOf_append, List.mem_append] at ht
      cases ht with
      | inl h => exact spawnsOf_do_fetch_sub cfg _ _ _ t h
      | inr h => exact ih t h
  intro s hs
  simp only [fetch_in_volume, spawnsOf_append, spawnsOf_dochdir, spawnsOf_spawn_cons,
    spawnsOf_nil, List.mem_append, List.not_mem_nil, false_or, or_false,
    List.nil_append, List.mem_cons] at hs
  rcases hs with (h | h) | h
  · exact spawnsOf_do_fetch_sub cfg _ _ _ s h
  · subst h
    by_cases hsvn : cfg.scmFlavor = "svn"
    · rw [if_pos hsvn]; decide
    · rw [if_neg hsvn]; decide
  · exact hflat lines _ s h

theorem emit_opt_keyerror (cfg : Config) :
    emit_cmake_cmd_script cfg cmake_flavors "opt" =
      ([], Except.error (PyErr.keyError (PyKey.i 2))) := rfl

theorem setup_cmake_loop_cons_error (cfg : Config) (flavors : FlavorTable)
    (flav : String) (fd : FDict) (rest : List (String × FDict)) (e : PyErr)
    (t : List Event)
    (he : emit_cmake_cmd_script cfg flavors flav = (t, Except.error e)) :
    setup_cmake_loop cfg flavors ((flav, fd) :: rest) =
      (docmd cfg ("mkdir build." ++ flav) ++ dochdirEvents cfg ("build." ++ flav) ++
        emit_rebuild_scripts cfg flav ++ t, Except.error e) := by
  rw [setup_cmake_loop, he]

theorem spawnsOf_emit_rebuild (cfg : Config) (flav : String) :
    spawnsOf (emit_rebuild_scripts cfg flav) = [] := by
  cases hd : cfg.dryrun <;> simp [emit_rebuild_scripts, hd, spawnsOf]

theorem spawnsOf_setup_cmake (cfg : Config) (hd : cfg.dryrun = false) :
    spawnsOf (do_setup_cmake cfg cmake_flavors).1 = ["mkdir build.opt"] := by
  unfold do_setup_cmake
  rw [show (cmake_flavors : List (String × FDict)) =
    ("opt", [(PyKey.s "cmflav", FVal.pynone), (PyKey.s "early", FVal.pyint 1),
      (PyKey.s "ccflav", FVal.pystr "clang"), (PyKey.s "extra", FVal.pynone)]) ::
      cmake_flavors.tail from rfl,
    setup_cmake_loop_cons_error cfg _ "opt" _ _ _ _ rfl]
  simp [spawnsOf_append, spawnsOf_docmd, spawnsOf_dochdir, spawnsOf_nil,
    spawnsOf_emit_rebuild, hd]

theorem spawnsOf_snapshot_rest (cfg : Config) (hd : cfg.dryrun = false) :
    spawnsOf (snapshot_create_rest cfg).1 =
      [snapCmd cfg, "mkdir binutils-build",
       "../binutils/configure --enable-gold --enable-plugins --disable-werror",
       "mkdir build.opt"] := by
  simp [snapshot_create_rest, do_configure_binutils, spawnsOf_append, spawnsOf_docmd,
    spawnsOf_doscmd, spawnsOf_dochdir, hd, spawnsOf_setup_cmake cfg hd]

/-- Claim C8.  In snapshot-creation mode (non-dry), with the refresh
flag set the whole refresh trace precedes the rest of the snapshot
sequence, the refresh spawns only refresh commands (fetch, rebase,
update, metadata find), and the first command spawned after it is the
external snapshot-creation command, which is not a refresh command; with
the flag unset the run consists of the rest alone, whose spawned
commands include no refresh command, the snapshot command being issued
first. -/
theorem c8_refresh_completes_before_snapshot (cfg : Config) (lines : List String)
    (cwd : String) (hd : cfg.dryrun = false) :
    (cfg.doFetch = true →
      (do_snapshot_create cfg lines cwd).1 =
        fetch_in_volume cfg lines cwd ++ (snapshot_create_rest cfg).1) ∧
    (cfg.doFetch = false →
      (do_snapshot_create cfg lines cwd).1 = (snapshot_create_rest cfg).1) ∧
    (∀ s ∈ spawnsOf (fetch_in_volume cfg lines cwd), s ∈ refreshCmds) ∧
    (spawnsOf (snapshot_create_rest cfg).1).head? = some (snapCmd cfg) ∧
    snapCmd cfg ∉ refreshCmds ∧
    (∀ s ∈ spawnsOf (snapshot_create_rest cfg).1, s ∉ refreshCmds) := by
  refine ⟨?_, ?_, spawnsOf_fetch_in_volume_sub cfg lines cwd, ?_,
    snapCmd_notin_refreshCmds cfg, ?_⟩
  · intro hf; simp [do_snapshot_create, hf]
  · intro hf; simp [do_snapshot_create, hf]
  · rw [spawnsOf_snapshot_rest cfg hd]
    rfl
  · intro s hs
    rw [spawnsOf_snapshot_rest cfg hd] at hs
    simp only [List.mem_cons, List.not_mem_nil, or_false] at hs
    rcases hs with h | h | h | h
    · subst h; exact snapCmd_notin_refreshCmds cfg
    · subst h; decide
    · subst h; decide
    · subst h; decide

/-- Witness for C8: the theorem applied to a concrete refresh-enabled
non-dry snapshot flag set. -/
theorem c8_refresh_completes_before_snapshot_witness :
    (({ volCfg "git-svn" with snapshot := some "snap", doFetch := true } : Config).doFetch
        = true →
      (do_snapshot_create { volCfg "git-svn" with snapshot := some "snap", doFetch := true }
          ["./llvm/.git"] "/h").1 =
        fetch_in_volume { volCfg "git-svn" with snapshot := some "snap", doFetch := true }
          ["./llvm/.git"] "/h" ++
        (snapshot_create_rest
          { volCfg "git-svn" with snapshot := some "snap", doFetch := true }).1) ∧
    (({ volCfg "git-svn" with snapshot := some "snap", doFetch := true } : Config).doFetch
        = false →
      (do_snapshot_create { volCfg "git-svn" with snapshot := some "snap", doFetch := true }
          ["./llvm/.git"] "/h").1 =
        (snapshot_create_rest
          { volCfg "git-svn" with snapshot := some "snap", doFetch := true }).1) ∧
    (∀ s ∈ spawnsOf (fetch_in_volume
        { volCfg "git-svn" with snapshot := some "snap", doFetch := true }
        ["./llvm/.git"] "/h"), s ∈ refreshCmds) ∧
    (spawnsOf (snapshot_create_rest
        { volCfg "git-svn" with snapshot := some "snap", doFetch := true }).1).head? =
      some (snapCmd { volCfg "git-svn" with snapshot := some "snap", doFetch := true }) ∧
    snapCmd { volCfg "git-svn" with snapshot := some "snap", doFetch := true } ∉
      refreshCmds ∧
    (∀ s ∈ spawnsOf (snapshot_create_rest
        { volCfg "git-svn" with snapshot := some "snap", doFetch := true }).1,
      s ∉ refreshCmds) :=
  c8_refresh_completes_before_snapshot
    { volCfg "git-svn" with snapshot := some "snap", doFetch := true }
    ["./llvm/.git"] "/h" rfl

end SLR

